import Mathlib

/-!
Shallow embedding of the ai-trading-assistant core: the Event Engine
(per-symbol sliding window, cooldown gate, rule evaluation) from
`internal/engine/engine.go`, the Alert Service pipeline (dedup, merge,
digest, rate-limit routing, delivery) from `internal/alert`, and the
Decision Advisor fallback from `internal/riskagent/agent.go`.

Go machine floats are modelled as rationals, Go ints as `Int`
(or `Nat` where the source guarantees non-negativity), Go maps as
association lists, and time as explicit integer parameters.  The token
bucket and the notification channel are external, time-dependent
collaborators; their outcomes enter the model as explicit parameters of
the pipeline functions, exactly at the call sites the Go code consults
them.
-/

namespace TradingAssistant

/-- Association-list lookup, modelling a Go map read `m[k]`. -/
def lookupKV {α : Type} : List (String × α) → String → Option α
  | [], _ => none
  | (k, v) :: rest, key => if k = key then some v else lookupKV rest key

/-- Association-list upsert, modelling a Go map write `m[k] = v`. -/
def insertKV {α : Type} (m : List (String × α)) (key : String) (v : α) :
    List (String × α) :=
  match m with
  | [] => [(key, v)]
  | (k, w) :: rest =>
      if k = key then (key, v) :: rest else (k, w) :: insertKV rest key v

/-- Association-list removal, modelling Go `delete(m, k)`. -/
def eraseKV {α : Type} : List (String × α) → String → List (String × α)
  | [], _ => []
  | (k, w) :: rest, key =>
      if k = key then eraseKV rest key else (k, w) :: eraseKV rest key

/-- Modelling Go `m[k] = append(m[k], v)` on a map of slices (a missing
key reads as the empty slice). -/
def appendKV {α : Type} (m : List (String × List α)) (key : String) (v : α) :
    List (String × List α) :=
  match lookupKV m key with
  | some l => insertKV m key (l ++ [v])
  | none => insertKV m key [v]

/-- The slice stored under `key`, empty when the key is absent. -/
def bucketKV {α : Type} (m : List (String × List α)) (key : String) : List α :=
  (lookupKV m key).getD []

theorem lookupKV_insertKV_self {α : Type} (m : List (String × α))
    (key : String) (v : α) : lookupKV (insertKV m key v) key = some v := by
  induction m with
  | nil => simp [insertKV, lookupKV]
  | cons hd tl ih =>
      obtain ⟨k, w⟩ := hd
      by_cases hk : k = key
      · simp [insertKV, hk, lookupKV]
      · simp [insertKV, hk, lookupKV, ih]

theorem lookupKV_appendKV_self {α : Type} (m : List (String × List α))
    (key : String) (v : α) :
    lookupKV (appendKV m key v) key = some (bucketKV m key ++ [v]) := by
  unfold appendKV bucketKV
  cases h : lookupKV m key with
  | none => simp [lookupKV_insertKV_self]
  | some l => simp [lookupKV_insertKV_self]

theorem bucketKV_appendKV_self {α : Type} (m : List (String × List α))
    (key : String) (v : α) :
    bucketKV (appendKV m key v) key = bucketKV m key ++ [v] := by
  unfold bucketKV
  rw [lookupKV_appendKV_self]
  rfl

/-! ## Event Engine data model (`internal/engine/engine.go`, `internal/store`) -/

/-- Model of `store.MarketSnapshot`: one timestamped price/volume observation. -/
structure MarketSnapshot where
  symbol : String
  ts : Int
  price : ℚ
  changePct : ℚ
  volume : ℚ
deriving DecidableEq, Repr

/-- Model of `trimWindow` from `engine.go`: truncate to the configured cap,
dropping the oldest entries.  `maxKeep : Int` mirrors the Go `int`
config field; the trim only applies when it is positive. -/
def trimWindow (maxKeep : Int) (window : List MarketSnapshot) :
    List MarketSnapshot :=
  if 0 < maxKeep ∧ maxKeep < (window.length : Int) then
    window.drop (window.length - maxKeep.toNat)
  else
    window

/-- The per-symbol window slice after folding `OnSnapshot`'s window
update (`append` then `trimWindow`) over a list of snapshots for one
symbol, starting from the empty window. -/
def windowAfter (maxKeep : Int) (snaps : List MarketSnapshot) :
    List MarketSnapshot :=
  snaps.foldl (fun w s => trimWindow maxKeep (w ++ [s])) []

/-- Go `strings.ToLower`, modelled character-wise on the string's
character list (which, unlike the positional core-library
implementation, evaluates by kernel reduction). -/
def toLowerStr (s : String) : String := ⟨s.data.map Char.toLower⟩

/-- Go `strings.ToUpper`, character-wise. -/
def toUpperStr (s : String) : String := ⟨s.data.map Char.toUpper⟩

/-- Go `strings.HasPrefix`, character-wise. -/
def strStartsWith (s p : String) : Bool := p.data.isPrefixOf s.data

/-- Dropping the first `n` characters of a string (Go `s[n:]` on the
all-ASCII symbols at hand). -/
def strDrop (s : String) (n : Nat) : String := ⟨s.data.drop n⟩

/-- Model of `checkCooldown` from `engine.go`: keyed by `rule:symbol:severity`;
returns whether the firing may proceed together with the updated
cooldown map.  The timestamp is written only on a non-suppressed
firing. -/
def cooldownKey (ruleType symbol severity : String) : String :=
  ruleType ++ ":" ++ symbol ++ ":" ++ severity

def checkCooldown (cooldown : List (String × Int))
    (ruleType symbol severity : String) (cooldownSec : Int) (now : Int) :
    Bool × List (String × Int) :=
  if cooldownSec ≤ 0 then (true, cooldown)
  else
    let key := cooldownKey ruleType symbol severity
    match lookupKV cooldown key with
    | some last =>
        if now - last < cooldownSec then (false, cooldown)
        else (true, insertKV cooldown key now)
    | none => (true, insertKV cooldown key now)

/-- Model of `isStockSymbol` from `engine.go`: lowercase `sh`/`sz` followed by six
digits, excluding the hardcoded `sh000001`. -/
def isStockSymbol (sym : String) : Bool :=
  let s := toLowerStr sym
  if s.length ≠ 8 then false
  else if ¬ (strStartsWith s "sh" ∨ strStartsWith s "sz") then false
  else if ¬ (strDrop s 2).data.all
      (fun c => decide ('0' ≤ c) && decide (c ≤ '9')) then
    false
  else s ≠ "sh000001"

/-- The spec's symbol-pattern predicate alone (`sh`/`sz` + 6 digits),
kept separate from `isStockSymbol` so the claim about the configured
index symbol can be stated against the source's behaviour. -/
def matchesStockPattern (sym : String) : Bool :=
  let s := toLowerStr sym
  s.length = 8 ∧ (strStartsWith s "sh" ∨ strStartsWith s "sz") ∧
    (strDrop s 2).data.all (fun c => decide ('0' ≤ c) && decide (c ≤ '9'))

theorem isStockSymbol_eq (sym : String) :
    isStockSymbol sym =
      (matchesStockPattern sym ∧ toLowerStr sym ≠ "sh000001") := by
  unfold isStockSymbol matchesStockPattern
  by_cases h1 : (toLowerStr sym).length = 8 <;>
    by_cases h2 : strStartsWith (toLowerStr sym) "sh" ∨
      strStartsWith (toLowerStr sym) "sz" <;>
      by_cases h3 :
        (strDrop (toLowerStr sym) 2).data.all
          (fun c => decide ('0' ≤ c) && decide (c ≤ '9')) <;>
        simp [h1, h2, h3]

/-! ## Engine rules (pre-cooldown firing decisions) -/

/-- Model of `IndexRiskConfig` from `engine.go` (the `symbol` field is the
configured index symbol; `New` defaults it to `sh000001`). -/
structure IndexRiskConfig where
  symbol : String
  medPct : ℚ
  highPct : ℚ
deriving DecidableEq, Repr

structure PanicDropConfig where
  windowSec : Int
  medPct : ℚ
  highPct : ℚ
deriving DecidableEq, Repr

structure VolumeSpikeConfig where
  maPoints : Int
  ratio : ℚ
deriving DecidableEq, Repr

/-- The backward scan of `rulePanicDrop`: from the most recent entry,
stop at the first snapshot older than the cutoff, taking the running
maximum price of the entries visited (initially `0`). -/
def maxPriceBack (window : List MarketSnapshot) (cutoff : Int) : ℚ :=
  (window.reverse.takeWhile (fun x => decide (cutoff ≤ x.ts))).foldl
    (fun m x => if m < x.price then x.price else m) 0

/-- Model of `rulePanicDrop` from `engine.go`, returning the severity and
drawdown of a firing (before the cooldown gate), or `none` when the
rule is a no-op. -/
def rulePanicDrop (cfg : PanicDropConfig) (s : MarketSnapshot)
    (window : List MarketSnapshot) : Option (String × ℚ) :=
  if ¬ isStockSymbol s.symbol then none
  else if cfg.windowSec ≤ 0 ∨ window.length < 2 then none
  else
    let cutoff := s.ts - cfg.windowSec
    let maxPrice := maxPriceBack window cutoff
    if maxPrice ≤ 0 then none
    else
      let drawdownPct := (s.price - maxPrice) / maxPrice * 100
      if drawdownPct ≤ -cfg.highPct then some ("high", drawdownPct)
      else if drawdownPct ≤ -cfg.medPct then some ("med", drawdownPct)
      else none

/-- Model of `ruleVolumeSpike` from `engine.go`, returning the severity (always
`"med"` in the source) and the volume ratio of a firing, or `none`. -/
def ruleVolumeSpike (cfg : VolumeSpikeConfig) (s : MarketSnapshot)
    (window : List MarketSnapshot) : Option (String × ℚ) :=
  if ¬ isStockSymbol s.symbol then none
  else if cfg.maPoints ≤ 1 ∨ (window.length : Int) < cfg.maPoints then none
  else
    let start : Int := (window.length : Int) - cfg.maPoints
    let start : Int := if start < 0 then 0 else start
    let prior := (window.take (window.length - 1)).drop start.toNat
    let pos := prior.filter (fun x => decide (0 < x.volume))
    if pos.length = 0 then none
    else
      let avg := (pos.map (fun x => x.volume)).sum / (pos.length : ℚ)
      if avg ≤ 0 then none
      else
        let r := s.volume / avg
        if cfg.ratio ≤ r then some ("med", r) else none

/-! ## Alert Service (`internal/alert`) -/

/-- Model of `alert.AlertRequest`; `priority` is a string as in the Go source
(`type Priority string`). -/
structure AlertRequest where
  priority : String
  group : String
  title : String
  markdown : String
  dedupKey : String
  mergeKey : String
  silent : Bool
deriving DecidableEq, Repr

/-- Model of `alert.Result`; the Go `error` field is modelled as `Option String`
(`none` = nil error). -/
structure AlertResult where
  status : String
  error : Option String
  dingTalkErrCode : Int
  dingTalkErrMsg : String
deriving DecidableEq, Repr

/-- The alert-service configuration consumed by the pipeline; the Go
`time.Duration` windows are integer time units (the code only compares
differences against them). -/
structure AlertConfig where
  dedupWindow : Int
  mergeWindow : Int
  lowDigestInterval : Int
deriving DecidableEq, Repr

/-- Model of `normalize` from `service.go`: default priority `med`, default group
`default`. -/
def normalize (req : AlertRequest) : AlertRequest :=
  { req with
    priority := if req.priority = "" then "med" else req.priority
    group := if req.group = "" then "default" else req.group }

/-- Model of `rank` from `service.go` (unknown priorities rank as `med`). -/
def rank (p : String) : Nat :=
  if p = "high" then 3
  else if p = "med" then 2
  else if p = "low" then 1
  else 2

/-- Model of `maxPriority` from `service.go`. -/
def maxPriority (alerts : List AlertRequest) : String :=
  alerts.foldl (fun p a => if rank p < rank a.priority then a.priority else p)
    "low"

/-- Model of `mergedTitle` from `service.go`.  The empty-list case cannot be
reached from `flushMerge` (Go would panic on `alerts[0]`). -/
def mergedTitle (alerts : List AlertRequest) : String :=
  match alerts with
  | [] => ""
  | [a] => a.title
  | a :: _ =>
      (if a.title = "" then "Merged Alerts" else a.title) ++
        " (+" ++ toString (alerts.length - 1) ++ ")"

/-- One member's block in `mergedMarkdown`'s string builder loop. -/
def memberBlock (a : AlertRequest) : String :=
  "- **" ++ (if a.title = "" then "(no title)" else a.title) ++ "**" ++
    (if a.markdown = "" then "" else "\n  " ++ a.markdown) ++ "\n"

/-- Model of `mergedMarkdown` from `service.go`: the builder loop concatenates
one block per member. -/
def mergedMarkdown (alerts : List AlertRequest) : String :=
  String.join (alerts.map memberBlock)

/-- Model of `allSilent` from `service.go`. -/
def allSilent (alerts : List AlertRequest) : Bool :=
  alerts.all (fun a => a.silent)

/-- Model of `buildMerged` from `service.go`.  The empty case is unreachable from
`flushMerge` (guarded by `len(state.alerts) == 0`); Go would panic. -/
def buildMerged (alerts : List AlertRequest) : AlertRequest :=
  match alerts with
  | [] =>
      { priority := "", group := "", title := "", markdown := ""
        dedupKey := "", mergeKey := "", silent := false }
  | first :: _ =>
      { first with
        mergeKey := ""
        dedupKey := ""
        priority := maxPriority alerts
        title := mergedTitle alerts
        markdown := mergedMarkdown alerts
        silent := allSilent alerts }

/-- Model of `isDeduped` from `service.go`: suppress when the key was seen within
the window; record the occurrence time otherwise.  Returns the flag and
the updated dedup map. -/
def isDeduped (cfg : AlertConfig) (dedup : List (String × Int)) (now : Int)
    (req : AlertRequest) : Bool × List (String × Int) :=
  if req.dedupKey = "" ∨ cfg.dedupWindow ≤ 0 then (false, dedup)
  else
    match lookupKV dedup req.dedupKey with
    | some last =>
        if now - last ≤ cfg.dedupWindow then (true, dedup)
        else (false, insertKV dedup req.dedupKey now)
    | none => (false, insertKV dedup req.dedupKey now)

/-- Model of `enqueueMerge` from `service.go`: append to the key's pending list
(creating the state, and in Go arming the one-shot timer, when it is the
first pending request). -/
def enqueueMerge (merge : List (String × List AlertRequest))
    (req : AlertRequest) : List (String × List AlertRequest) :=
  appendKV merge req.mergeKey req

/-- Model of `flushMerge` from `service.go`: atomically swap the key's state out,
collapse it with `buildMerged`, and resubmit the synthetic request
through `Handle` unless every member was silent.  Returned as the new
merge map plus the request resubmitted (if any). -/
def flushMerge (merge : List (String × List AlertRequest)) (key : String) :
    List (String × List AlertRequest) × Option AlertRequest :=
  match lookupKV merge key with
  | none => (merge, none)
  | some alerts =>
      let merge' := eraseKV merge key
      if alerts.length = 0 then (merge', none)
      else
        let merged := buildMerged alerts
        if merged.silent then (merge', none) else (merge', some merged)

/-- Model of `addDigest` from `service.go`: a no-op when no digest interval is
configured; otherwise append to the group's bucket. -/
def addDigest (cfg : AlertConfig) (digest : List (String × List AlertRequest))
    (req : AlertRequest) : List (String × List AlertRequest) :=
  if cfg.lowDigestInterval ≤ 0 then digest
  else
    let group := if req.group = "" then "default" else req.group
    appendKV digest group req

/-- The Notification Channel's response to one send attempt, supplied to
the model as a parameter: no configured client, a transport error, or a
channel response carrying `errcode`/`errmsg`. -/
inductive ChannelOutcome where
  | noClient : ChannelOutcome
  | transportError (msg : String) : ChannelOutcome
  | response (errCode : Int) (errMsg : String) : ChannelOutcome
deriving DecidableEq, Repr

/-- Model of `sendNow` from `service.go`: every branch returns status `sent`;
failure is conveyed through the error and channel-code fields. -/
def sendNow (ch : ChannelOutcome) (_req : AlertRequest) : AlertResult :=
  match ch with
  | .noClient =>
      { status := "sent", error := some "dingtalk client not configured"
        dingTalkErrCode := 0, dingTalkErrMsg := "" }
  | .transportError msg =>
      { status := "sent", error := some msg
        dingTalkErrCode := 0, dingTalkErrMsg := "" }
  | .response errCode errMsg =>
      if errCode ≠ 0 then
        { status := "sent"
          error := some ("dingtalk errcode=" ++ toString errCode ++
            " errmsg=" ++ errMsg)
          dingTalkErrCode := errCode, dingTalkErrMsg := errMsg }
      else
        { status := "sent", error := none
          dingTalkErrCode := errCode, dingTalkErrMsg := errMsg }

/-- Model of `handleSendOrDigest` from `service.go`.  `limAllow` is the outcome
of `limiter == nil || limiter.Allow()` and `limWait` the outcome of
`limiter.WaitForToken(2s)`, both time-dependent collaborator results
supplied as parameters. -/
def handleSendOrDigest (cfg : AlertConfig) (limAllow limWait : Bool)
    (ch : ChannelOutcome) (digest : List (String × List AlertRequest))
    (req : AlertRequest) : AlertResult × List (String × List AlertRequest) :=
  if req.priority = "low" then
    ({ status := "queued_digest", error := none
       dingTalkErrCode := 0, dingTalkErrMsg := "" }, addDigest cfg digest req)
  else if limAllow then (sendNow ch req, digest)
  else if req.priority = "high" then
    if limWait then (sendNow ch req, digest)
    else
      ({ status := "queued_digest", error := none
         dingTalkErrCode := 0, dingTalkErrMsg := "" }, addDigest cfg digest req)
  else
    ({ status := "queued_digest", error := none
       dingTalkErrCode := 0, dingTalkErrMsg := "" }, addDigest cfg digest req)

/-- The alert service's mutable state: the dedup, merge and digest
maps. -/
structure AlertState where
  dedup : List (String × Int)
  merge : List (String × List AlertRequest)
  digest : List (String × List AlertRequest)
deriving DecidableEq, Repr

/-- Model of `Handle` from `service.go`: normalize, silent override, dedup,
merge enqueue, then priority routing.  `now` is the current time read
inside `isDeduped`. -/
def Handle (cfg : AlertConfig) (now : Int) (limAllow limWait : Bool)
    (ch : ChannelOutcome) (st : AlertState) (req : AlertRequest) :
    AlertResult × AlertState :=
  if (normalize req).silent then
    ({ status := "suppressed", error := none
       dingTalkErrCode := 0, dingTalkErrMsg := "" }, st)
  else if (isDeduped cfg st.dedup now (normalize req)).1 then
    -- isDeduped leaves the map unchanged when it suppresses
    ({ status := "suppressed", error := none
       dingTalkErrCode := 0, dingTalkErrMsg := "" },
     { st with dedup := (isDeduped cfg st.dedup now (normalize req)).2 })
  else if (normalize req).mergeKey ≠ "" ∧ 0 < cfg.mergeWindow then
    ({ status := "merged_pending", error := none
       dingTalkErrCode := 0, dingTalkErrMsg := "" },
     { st with dedup := (isDeduped cfg st.dedup now (normalize req)).2
               merge := enqueueMerge st.merge (normalize req) })
  else
    ((handleSendOrDigest cfg limAllow limWait ch st.digest (normalize req)).1,
     { st with dedup := (isDeduped cfg st.dedup now (normalize req)).2
               digest :=
         (handleSendOrDigest cfg limAllow limWait ch st.digest
           (normalize req)).2 })

/-- Sequential processing of a batch of requests through `Handle`, with
a fixed clock reading and fixed collaborator outcomes (the merge path
consults neither). -/
def handleAll (cfg : AlertConfig) (now : Int) (limAllow limWait : Bool)
    (ch : ChannelOutcome) (st : AlertState) :
    List AlertRequest → List AlertResult × AlertState
  | [] => ([], st)
  | r :: rest =>
      let out := Handle cfg now limAllow limWait ch st r
      let outs := handleAll cfg now limAllow limWait ch out.2 rest
      (out.1 :: outs.1, outs.2)

/-! ## Decision Advisor fallback (`internal/riskagent/agent.go`) -/

/-- Model of `riskagent.EventInput`.  The Go `Evidence` field is a JSON string;
we model it in already-parsed form (`parseEvidenceMap` composed with
the field), as JSON wire parsing is out of the spec's scope, keeping
the Go behaviour that a missing key reads as `0` via `getFloat`. -/
structure EventInput where
  eventId : Int
  type : String
  severity : String
  symbol : String
  changePct : ℚ
  drawdownPct : ℚ
  windowSec : Int
  evidence : List (String × ℚ)
deriving DecidableEq, Repr

/-- Model of `riskagent.RiskDecision`. -/
structure RiskDecision where
  riskLevel : Int
  severity : String
  oneLiner : String
  why : List String
  actionHint : List String
  confidence : ℚ
  tags : List String
deriving DecidableEq, Repr

/-- Model of `getFloat(ev[key])` over the parsed evidence map: missing keys read
as `0`. -/
def getFloatEv (ev : List (String × ℚ)) (key : String) : ℚ :=
  (lookupKV ev key).getD 0

/-- Rendering of a rational in a message string.  Go formats with
`%.1f`/`%.2f`; the exact digit format is outside the claims' scope, the
model only needs a deterministic rendering. -/
def fmtQ (q : ℚ) : String :=
  toString q.num ++ "/" ++ toString q.den

/-- Model of `trimList` from `agent.go`. -/
def trimList (l : List String) (n : Nat) : List String :=
  if n < l.length then l.take n else l

/-- Model of `buildGenericWhy` from `agent.go`. -/
def buildGenericWhy (i : EventInput) : List String :=
  let out : List String := []
  let out := if i.changePct ≠ 0 then out ++ ["change_pct=" ++ fmtQ i.changePct]
    else out
  let out := if i.drawdownPct ≠ 0 then
      out ++ ["drawdown_pct=" ++ fmtQ i.drawdownPct]
    else out
  let out := if 0 < i.windowSec then
      out ++ ["window_sec=" ++ toString i.windowSec]
    else out
  let out := if i.evidence ≠ [] ∧ out.length < 3 then
      out ++ ["evidence_json present"]
    else out
  out

/-- Model of `buildActionFromSeverity` from `agent.go`. -/
def buildActionFromSeverity (sev : String) : List String :=
  if sev = "high" then
    ["reduce exposure", "tighten risk limits", "increase monitoring frequency"]
  else if sev = "med" then
    ["monitor closely", "review positions", "tighten stop-loss rules"]
  else
    ["monitor and collect more signals"]

/-- Model of `buildWhyAction` from `agent.go`: type-specific narrative when the
numeric evidence is complete, otherwise the generic fallback lists. -/
def buildWhyAction (i : EventInput) : List String × List String :=
  let typ := toUpperStr i.type
  let threshold := getFloatEv i.evidence "threshold"
  let generic :=
    (buildGenericWhy i, buildActionFromSeverity (toLowerStr i.severity))
  if typ = "PANIC_DROP" then
    let drawdown := if 0 < i.drawdownPct then -i.drawdownPct else i.drawdownPct
    let mins := i.windowSec / 60
    let mins := if mins ≤ 0 then 5 else mins
    if drawdown ≠ 0 ∧ threshold ≠ 0 then
      ([toString mins ++ "分钟回撤 " ++ fmtQ drawdown ++ "%（阈值 -" ++
          fmtQ threshold ++ "%）"],
       ["优先减仓/收紧止损，避免加仓追涨", "等待止跌确认"])
    else generic
  else if typ = "INDEX_RISK" then
    let cp := if 0 < i.changePct then -i.changePct else i.changePct
    if cp ≠ 0 ∧ threshold ≠ 0 then
      (["上证跌幅 " ++ fmtQ cp ++ "%（阈值 -" ++ fmtQ threshold ++
          "%），短线情绪偏弱"],
       ["降低整体仓位上限", "减少高位追涨，优先防守"])
    else generic
  else generic

/-- Model of `fallbackFromEvent` from `agent.go`: the deterministic decision used
whenever the advisor is disabled, errors, or returns unparseable
output. -/
def fallbackFromEvent (i : EventInput) : RiskDecision :=
  let sev0 := toLowerStr i.severity
  let srl : String × Int × ℚ :=
    if sev0 = "high" then (sev0, 5, 7/10)
    else if sev0 = "med" then (sev0, 3, 1/2)
    else ("low", 1, 2/5)
  let sev := srl.1
  let rl := srl.2.1
  let conf := srl.2.2
  let wa := buildWhyAction i
  let why := if wa.1.length = 0 then ["evidence provided in event payload"]
    else wa.1
  let action := if wa.2.length = 0 then ["monitor and reduce exposure risk"]
    else wa.2
  { riskLevel := rl
    severity := sev
    oneLiner := sev ++ " risk assessment based on event severity"
    why := trimList why 3
    actionHint := trimList action 3
    confidence := conf
    tags := [toLowerStr i.type, "fallback"] }

/-- Model of `FormatMarkdown` from `agent.go`: the notification body combining
the event title and the decision. -/
def FormatMarkdown (title : String) (decision : RiskDecision) : String :=
  let title := if title = "" then "Risk Decision" else title
  let lines : List String :=
    ["**" ++ title ++ "**",
     "**结论**：" ++ decision.oneLiner ++ " (risk_level=" ++
       toString decision.riskLevel ++ ", severity=" ++ decision.severity ++ ")",
     "**证据**："] ++
    decision.why.map (fun w => "- " ++ w) ++
    ["**建议动作**："] ++
    decision.actionHint.map (fun a => "- " ++ a) ++
    ["**置信度**：" ++ fmtQ decision.confidence]
  String.intercalate "\n" lines

/-! ## Engine event emission (`emit` in `engine.go`) -/

/-- The closed form of the dynamic evidence map a rule attaches to its
firing (the spec's recommended tagged modelling of the open Go map):
each field present iff the corresponding key is set. -/
structure EvidenceV where
  changePct : Option ℚ
  drawdownPct : Option ℚ
  windowSec : Option Int
  threshold : Option ℚ
  level : Option ℚ
  ratio : Option ℚ
  avg : Option ℚ
deriving DecidableEq, Repr

/-- The evidence map in the parsed key/value form consumed by
`buildWhyAction` (presence mirrors the Go map's keys). -/
def EvidenceV.toList (ev : EvidenceV) : List (String × ℚ) :=
  (match ev.changePct with | some v => [("change_pct", v)] | none => []) ++
  (match ev.drawdownPct with | some v => [("drawdown_pct", v)] | none => []) ++
  (match ev.windowSec with | some v => [("window_sec", (v : ℚ))] | none => []) ++
  (match ev.threshold with | some v => [("threshold", v)] | none => []) ++
  (match ev.level with | some v => [("level", v)] | none => []) ++
  (match ev.ratio with | some v => [("ratio", v)] | none => []) ++
  (match ev.avg with | some v => [("avg", v)] | none => [])

/-- The discriminator tag of `emit`'s dedup key: window-size tag, else
level tag, else threshold tag, else `base`. -/
def windowTag (ev : EvidenceV) : String :=
  match ev.windowSec with
  | some v => "w" ++ toString v
  | none =>
      match ev.level with
      | some v => "lvl" ++ fmtQ v
      | none =>
          match ev.threshold with
          | some v => "thr" ++ fmtQ v
          | none => "base"

/-- Model of `buildEventTitle` from `engine.go`. -/
def buildEventTitle (eventType : String) (s : MarketSnapshot)
    (ev : EvidenceV) : String :=
  if eventType = "INDEX_RISK" then
    s.symbol ++ " INDEX_RISK change_pct=" ++ fmtQ s.changePct
  else if eventType = "PANIC_DROP" then
    match ev.drawdownPct with
    | some v =>
        (match ev.windowSec with
         | some w =>
             s.symbol ++ " PANIC_DROP drawdown=" ++ fmtQ v ++
               " window_sec=" ++ toString w
         | none => s.symbol ++ " PANIC_DROP drawdown=" ++ fmtQ v)
    | none => s.symbol ++ " " ++ eventType
  else s.symbol ++ " " ++ eventType

/-- What one `emit` call observably did: whether an event record was
persisted, the event id handed to risk evaluation, the decision
computed, and the alert request submitted to the Alert Service. -/
structure EmitResult where
  persisted : Bool
  eventId : Int
  decision : Option RiskDecision
  alert : Option AlertRequest
deriving DecidableEq, Repr

/-- The `riskagent.EventInput` that `evaluateRisk` builds from the
event. -/
def emitInput (eventId : Int) (eventType severity : String)
    (s : MarketSnapshot) (ev : EvidenceV) : EventInput :=
  { eventId := eventId
    type := eventType
    severity := severity
    symbol := s.symbol
    changePct := s.changePct
    drawdownPct := (ev.drawdownPct).getD 0
    windowSec := (ev.windowSec).getD 0
    evidence := ev.toList }

/-- Model of `emit` from `engine.go` for an engine constructed without an LLM
agent (`evaluateRisk` then returns the deterministic fallback).
`storeInsert` models the Durable Store collaborator: `none` when the
engine has no store, `some (.error ())` when `InsertEventReturnID`
fails (Go then yields id `0`), `some (.ok id)` on success.
`alertSvc` is whether an Alert Service is wired. -/
def emit (storeInsert : Option (Except Unit Int)) (alertSvc : Bool)
    (eventType severity : String) (s : MarketSnapshot) (ev : EvidenceV) :
    EmitResult :=
  match storeInsert with
  | none =>
      -- "event store not configured, drop event": early return.
      { persisted := false, eventId := 0, decision := none, alert := none }
  | some ins =>
      let severity := if severity = "" then "med" else severity
      let tag := windowTag ev
      let dedupKey := eventType ++ ":" ++ s.symbol ++ ":" ++ tag ++ ":" ++
        severity
      let mergeKey := "risk:" ++ s.symbol
      let eventId : Int := match ins with | .ok i => i | .error _ => 0
      if alertSvc = false then
        { persisted := true, eventId := eventId, decision := none
          alert := none }
      else
        let decision := fallbackFromEvent (emitInput eventId eventType severity s ev)
        let p := toLowerStr decision.severity
        let priority := if p ≠ "high" ∧ p ≠ "med" then "low" else p
        { persisted := true
          eventId := eventId
          decision := some decision
          alert := some
            { priority := priority
              group := "risk"
              title := buildEventTitle eventType s ev
              markdown := FormatMarkdown (buildEventTitle eventType s ev) decision
              dedupKey := dedupKey
              mergeKey := mergeKey
              silent := false } }

/-! ## Theorems -/

/-- Claim C1: for every rule, symbol and severity, starting from a state
with no recorded firing for that key, the first firing passes the
cooldown gate; a second firing of the same key less than `cooldown_sec`
later is suppressed and leaves the cooldown state unchanged; a firing
`cooldown_sec` or more later passes again; and the stored timestamp is
only rewritten on a non-suppressed firing, so it is monotonically
non-decreasing. -/
theorem cooldown_gate (cd : List (String × Int)) (rt sym sev : String)
    (sec t1 t2 : Int) (hsec : 0 < sec)
    (hfresh : lookupKV cd (cooldownKey rt sym sev) = none) :
    (checkCooldown cd rt sym sev sec t1).1 = true ∧
    (t2 - t1 < sec →
      checkCooldown (checkCooldown cd rt sym sev sec t1).2 rt sym sev sec t2 =
        (false, (checkCooldown cd rt sym sev sec t1).2)) ∧
    (sec ≤ t2 - t1 →
      (checkCooldown (checkCooldown cd rt sym sev sec t1).2 rt sym sev sec
        t2).1 = true) ∧
    (∀ (cd' : List (String × Int)) (rt' sym' sev' : String)
        (sec' t' last last' : Int),
      lookupKV cd' (cooldownKey rt' sym' sev') = some last →
      lookupKV (checkCooldown cd' rt' sym' sev' sec' t').2
        (cooldownKey rt' sym' sev') = some last' →
      last ≤ last') := by
  have hs : ¬ sec ≤ 0 := not_le.mpr hsec
  have h2 : checkCooldown cd rt sym sev sec t1 =
      (true, insertKV cd (cooldownKey rt sym sev) t1) := by
    simp [checkCooldown, hs, hfresh]
  refine ⟨by rw [h2], ?_, ?_, ?_⟩
  · intro h
    rw [h2]
    simp [checkCooldown, hs, lookupKV_insertKV_self, h]
  · intro h
    rw [h2]
    simp [checkCooldown, hs, lookupKV_insertKV_self, not_lt.mpr h]
  · intro cd' rt' sym' sev' sec' t' last last' hl hl'
    by_cases hs' : sec' ≤ 0
    · simp only [checkCooldown, if_pos hs'] at hl'
      rw [hl] at hl'
      simp only [Option.some.injEq] at hl'
      omega
    · simp only [checkCooldown, if_neg hs', hl] at hl'
      by_cases hc : t' - last < sec'
      · rw [if_pos hc] at hl'
        rw [hl] at hl'
        simp only [Option.some.injEq] at hl'
        omega
      · rw [if_neg hc] at hl'
        simp only [lookupKV_insertKV_self, Option.some.injEq] at hl'
        omega

/-- Concrete instantiation of `cooldown_gate`. -/
theorem cooldown_gate_witness :
    (0 : Int) < 180 ∧
    lookupKV ([] : List (String × Int))
      (cooldownKey "VOLUME_SPIKE" "sh600000" "med") = none ∧
    ((checkCooldown [] "VOLUME_SPIKE" "sh600000" "med" 180 1000).1 = true ∧
     ((1100 : Int) - 1000 < 180 →
       checkCooldown
         (checkCooldown [] "VOLUME_SPIKE" "sh600000" "med" 180 1000).2
         "VOLUME_SPIKE" "sh600000" "med" 180 1100 =
         (false,
          (checkCooldown [] "VOLUME_SPIKE" "sh600000" "med" 180 1000).2)) ∧
     ((180 : Int) ≤ 1200 - 1000 →
       (checkCooldown
         (checkCooldown [] "VOLUME_SPIKE" "sh600000" "med" 180 1000).2
         "VOLUME_SPIKE" "sh600000" "med" 180 1200).1 = true) ∧
     (∀ (cd' : List (String × Int)) (rt' sym' sev' : String)
         (sec' t' last last' : Int),
       lookupKV cd' (cooldownKey rt' sym' sev') = some last →
       lookupKV (checkCooldown cd' rt' sym' sev' sec' t').2
         (cooldownKey rt' sym' sev') = some last' →
       last ≤ last')) :=
  ⟨by decide, rfl, cooldown_gate [] "VOLUME_SPIKE" "sh600000" "med" 180 1000
    1100 (by decide) rfl |>.1,
   (cooldown_gate [] "VOLUME_SPIKE" "sh600000" "med" 180 1000 1100 (by decide)
     rfl).2.1,
   (cooldown_gate [] "VOLUME_SPIKE" "sh600000" "med" 180 1000 1200 (by decide)
     rfl).2.2.1,
   (cooldown_gate [] "VOLUME_SPIKE" "sh600000" "med" 180 1000 1100 (by decide)
     rfl).2.2.2⟩

theorem trimWindow_eq_drop (cap : Int) (hcap : 0 < cap)
    (w : List MarketSnapshot) :
    trimWindow cap w = w.drop (w.length - cap.toNat) := by
  unfold trimWindow
  by_cases h : cap < (w.length : Int)
  · rw [if_pos ⟨hcap, h⟩]
  · rw [if_neg (by tauto)]
    have hz : w.length - cap.toNat = 0 := by omega
    rw [hz, List.drop_zero]

theorem foldl_trim_eq_drop (cap : Int) (hcap : 0 < cap) :
    ∀ (l w : List MarketSnapshot), w.length ≤ cap.toNat →
      l.foldl (fun acc s => trimWindow cap (acc ++ [s])) w =
        (w ++ l).drop ((w ++ l).length - cap.toNat) := by
  intro l
  induction l with
  | nil =>
      intro w hw
      simp only [List.foldl_nil, List.append_nil, List.length_append]
      rw [Nat.sub_eq_zero_of_le (by simpa using hw), List.drop_zero]
  | cons s l ih =>
      intro w hw
      rw [List.foldl_cons]
      have hstep : trimWindow cap (w ++ [s]) =
          (w ++ [s]).drop ((w.length + 1) - cap.toNat) := by
        rw [trimWindow_eq_drop cap hcap]
        simp
      rw [hstep]
      have hlen : ((w ++ [s]).drop ((w.length + 1) - cap.toNat)).length ≤
          cap.toNat := by
        simp only [List.length_drop, List.length_append, List.length_cons,
          List.length_nil]
        omega
      rw [ih _ hlen]
      have hle : (w.length + 1) - cap.toNat ≤ (w ++ [s]).length := by
        simp only [List.length_append, List.length_cons, List.length_nil]
        omega
      have hsplit : ((w ++ [s]) ++ l).drop ((w.length + 1) - cap.toNat) =
          (w ++ [s]).drop ((w.length + 1) - cap.toNat) ++ l := by
        rw [List.drop_append_eq_append_drop]
        have h0 : (w.length + 1) - cap.toNat - (w ++ [s]).length = 0 := by
          simp only [List.length_append, List.length_cons, List.length_nil]
          omega
        rw [h0, List.drop_zero]
      rw [← hsplit, List.drop_drop]
      have harr : (w ++ [s]) ++ l = w ++ s :: l := by
        simp
      rw [harr]
      congr 1
      simp only [List.length_drop, List.length_append, List.length_cons,
        List.length_nil]
      omega

/-- Claim C5: for every sequence of `N` snapshots ingested for one
symbol, the window after the `N`-th ingestion has length `min N cap`,
never exceeds the configured cap, is exactly the suffix of the most
recent `min N cap` snapshots (the oldest evicted first), and is sorted
by timestamp whenever the snapshots arrive in timestamp order. -/
theorem window_after_ingestions (cap : Int) (snaps : List MarketSnapshot)
    (hcap : 0 < cap) :
    (windowAfter cap snaps).length = min snaps.length cap.toNat ∧
    (windowAfter cap snaps).length ≤ cap.toNat ∧
    windowAfter cap snaps = snaps.drop (snaps.length - cap.toNat) ∧
    (snaps.Pairwise (fun a b => a.ts ≤ b.ts) →
      (windowAfter cap snaps).Pairwise (fun a b => a.ts ≤ b.ts)) := by
  have hmain : windowAfter cap snaps =
      snaps.drop (snaps.length - cap.toNat) := by
    have := foldl_trim_eq_drop cap hcap snaps [] (by simp)
    simpa [windowAfter] using this
  refine ⟨?_, ?_, hmain, ?_⟩
  · rw [hmain]
    simp only [List.length_drop]
    omega
  · rw [hmain]
    simp only [List.length_drop]
    omega
  · intro hsorted
    rw [hmain]
    exact hsorted.sublist (List.drop_sublist _ _)

/-- Concrete instantiation of `window_after_ingestions`: cap 2, three
ingestions; the window keeps the two most recent snapshots. -/
theorem window_after_ingestions_witness :
    (0 : Int) < 2 ∧
    ((windowAfter 2 [⟨"sh600000", 1, 10, 0, 100⟩, ⟨"sh600000", 2, 11, 0, 100⟩,
        ⟨"sh600000", 3, 12, 0, 100⟩]).length =
      min ([⟨"sh600000", 1, 10, 0, 100⟩, ⟨"sh600000", 2, 11, 0, 100⟩,
        (⟨"sh600000", 3, 12, 0, 100⟩ : MarketSnapshot)].length) (Int.toNat 2) ∧
     (windowAfter 2 [⟨"sh600000", 1, 10, 0, 100⟩, ⟨"sh600000", 2, 11, 0, 100⟩,
        ⟨"sh600000", 3, 12, 0, 100⟩]).length ≤ Int.toNat 2 ∧
     windowAfter 2 [⟨"sh600000", 1, 10, 0, 100⟩, ⟨"sh600000", 2, 11, 0, 100⟩,
        ⟨"sh600000", 3, 12, 0, 100⟩] =
       [⟨"sh600000", 1, 10, 0, 100⟩, ⟨"sh600000", 2, 11, 0, 100⟩,
        (⟨"sh600000", 3, 12, 0, 100⟩ : MarketSnapshot)].drop
         ([⟨"sh600000", 1, 10, 0, 100⟩, ⟨"sh600000", 2, 11, 0, 100⟩,
           (⟨"sh600000", 3, 12, 0, 100⟩ : MarketSnapshot)].length -
           Int.toNat 2) ∧
     ([⟨"sh600000", 1, 10, 0, 100⟩, ⟨"sh600000", 2, 11, 0, 100⟩,
        (⟨"sh600000", 3, 12, 0, 100⟩ : MarketSnapshot)].Pairwise
         (fun a b => a.ts ≤ b.ts) →
       (windowAfter 2 [⟨"sh600000", 1, 10, 0, 100⟩,
          ⟨"sh600000", 2, 11, 0, 100⟩,
          ⟨"sh600000", 3, 12, 0, 100⟩]).Pairwise
         (fun a b => a.ts ≤ b.ts))) :=
  ⟨by decide,
   window_after_ingestions 2
     [⟨"sh600000", 1, 10, 0, 100⟩, ⟨"sh600000", 2, 11, 0, 100⟩,
      ⟨"sh600000", 3, 12, 0, 100⟩] (by decide)⟩

/-- The spec's C6 scenario: five snapshots of a stock symbol with
volumes `[100,100,100,100,1000]`. -/
def c6snaps : List MarketSnapshot :=
  [⟨"sh600000", 1, 10, 0, 100⟩, ⟨"sh600000", 2, 10, 0, 100⟩,
   ⟨"sh600000", 3, 10, 0, 100⟩, ⟨"sh600000", 4, 10, 0, 100⟩,
   ⟨"sh600000", 5, 10, 0, 1000⟩]

/-- Variant with a zero-volume point and a tighter ratio: the zero point
is excluded from the average (average of the positive priors is 100, so
the ratio is 1150/100 = 11.5 < 12 and the rule stays silent; counting
the zero point would have given average 75 and ratio 15.3). -/
def c6snapsZero : List MarketSnapshot :=
  [⟨"sh600000", 1, 10, 0, 0⟩, ⟨"sh600000", 2, 10, 0, 100⟩,
   ⟨"sh600000", 3, 10, 0, 100⟩, ⟨"sh600000", 4, 10, 0, 100⟩,
   ⟨"sh600000", 5, 10, 0, 1150⟩]

/-- Claim C6: VOLUME_SPIKE is inactive until the window holds at least
`ma_points` snapshots; any firing has severity `med` and a volume ratio
at least the configured ratio; and in the concrete scenario (volumes
`[100,100,100,100,1000]`, `ma_points = 5`, `ratio = 3`) it fires
exactly on the fifth snapshot with ratio `10` (average of the prior
four is 100), while a zero-volume prior point is excluded from the
average. -/
theorem volume_spike_rule :
    (∀ (cfg : VolumeSpikeConfig) (s : MarketSnapshot)
        (window : List MarketSnapshot),
      (window.length : Int) < cfg.maPoints →
      ruleVolumeSpike cfg s window = none) ∧
    (∀ (cfg : VolumeSpikeConfig) (s : MarketSnapshot)
        (window : List MarketSnapshot) (sev : String) (r : ℚ),
      ruleVolumeSpike cfg s window = some (sev, r) →
      sev = "med" ∧ cfg.ratio ≤ r) ∧
    (ruleVolumeSpike ⟨5, 3⟩ ⟨"sh600000", 1, 10, 0, 100⟩
      (windowAfter 200 (c6snaps.take 1)) = none) ∧
    (ruleVolumeSpike ⟨5, 3⟩ ⟨"sh600000", 2, 10, 0, 100⟩
      (windowAfter 200 (c6snaps.take 2)) = none) ∧
    (ruleVolumeSpike ⟨5, 3⟩ ⟨"sh600000", 3, 10, 0, 100⟩
      (windowAfter 200 (c6snaps.take 3)) = none) ∧
    (ruleVolumeSpike ⟨5, 3⟩ ⟨"sh600000", 4, 10, 0, 100⟩
      (windowAfter 200 (c6snaps.take 4)) = none) ∧
    (ruleVolumeSpike ⟨5, 3⟩ ⟨"sh600000", 5, 10, 0, 1000⟩
      (windowAfter 200 c6snaps) = some ("med", 10)) ∧
    (ruleVolumeSpike ⟨5, 12⟩ ⟨"sh600000", 5, 10, 0, 1150⟩
      (windowAfter 200 c6snapsZero) = none) := by
  refine ⟨?_, ?_, by decide, by decide, by decide, by decide, ?_, ?_⟩
  · intro cfg s window h
    by_cases hs : isStockSymbol s.symbol
    · simp [ruleVolumeSpike, hs, h]
    · simp [ruleVolumeSpike, hs]
  · intro cfg s window sev r h
    unfold ruleVolumeSpike at h
    dsimp only at h
    repeat' split at h
    all_goals
      first
        | exact Option.noConfusion h
        | (rename_i h5
           simp only [Option.some.injEq, Prod.mk.injEq] at h
           exact ⟨h.1.symm, h.2 ▸ h5⟩)
  · have hw : windowAfter 200 c6snaps = c6snaps := by decide
    have hs : isStockSymbol "sh600000" = true := by decide
    rw [hw]
    simp only [ruleVolumeSpike, c6snaps, hs]
    norm_num
  · have hw : windowAfter 200 c6snapsZero = c6snapsZero := by decide
    have hs : isStockSymbol "sh600000" = true := by decide
    rw [hw]
    simp only [ruleVolumeSpike, c6snapsZero, hs]
    norm_num

/-- Concrete instantiation of `volume_spike_rule`'s conditional parts:
the inactivity guard on a four-snapshot window, and the severity/ratio
bound at the firing on the fifth snapshot. -/
theorem volume_spike_rule_witness :
    ((windowAfter 200 (c6snaps.take 4)).length : Int) < (5 : Int) ∧
    ruleVolumeSpike ⟨5, 3⟩ ⟨"sh600000", 4, 10, 0, 100⟩
      (windowAfter 200 (c6snaps.take 4)) = none ∧
    ruleVolumeSpike ⟨5, 3⟩ ⟨"sh600000", 5, 10, 0, 1000⟩
      (windowAfter 200 c6snaps) = some ("med", 10) ∧
    ("med" = "med" ∧ (⟨5, 3⟩ : VolumeSpikeConfig).ratio ≤ 10) :=
  ⟨by decide,
   volume_spike_rule.1 ⟨5, 3⟩ ⟨"sh600000", 4, 10, 0, 100⟩
     (windowAfter 200 (c6snaps.take 4)) (by decide),
   volume_spike_rule.2.2.2.2.2.2.1,
   volume_spike_rule.2.1 ⟨5, 3⟩ ⟨"sh600000", 5, 10, 0, 1000⟩
     (windowAfter 200 c6snaps) "med" 10 volume_spike_rule.2.2.2.2.2.2.1⟩

theorem isStockSymbol_false_of_pattern {sym : String}
    (h : matchesStockPattern sym = false) : isStockSymbol sym = false := by
  unfold isStockSymbol
  unfold matchesStockPattern at h
  by_cases h1 : (toLowerStr sym).length = 8 <;>
    by_cases h2 : strStartsWith (toLowerStr sym) "sh" ∨
      strStartsWith (toLowerStr sym) "sz" <;>
      by_cases h3 :
        (strDrop (toLowerStr sym) 2).data.all
          (fun c => decide ('0' ≤ c) && decide (c ≤ '9')) <;>
        simp [h1, h2, h3] at h ⊢

theorem isStockSymbol_false_of_index {sym : String}
    (h : toLowerStr sym = "sh000001") : isStockSymbol sym = false := by
  simp [isStockSymbol, h]

theorem foldl_price_init_le (l : List MarketSnapshot) :
    ∀ init : ℚ,
      init ≤ l.foldl (fun m x => if m < x.price then x.price else m) init := by
  induction l with
  | nil => intro init; exact le_refl _
  | cons y l ih =>
      intro init
      refine le_trans ?_ (ih (if init < y.price then y.price else init))
      split
      · exact le_of_lt (by assumption)
      · exact le_refl _

theorem foldl_price_mem_le (l : List MarketSnapshot) :
    ∀ init : ℚ, ∀ x ∈ l,
      x.price ≤ l.foldl (fun m x => if m < x.price then x.price else m) init := by
  induction l with
  | nil => intro init x hx; exact absurd hx (List.not_mem_nil x)
  | cons y l ih =>
      intro init x hx
      rcases List.mem_cons.mp hx with hx | hx
      · subst hx
        refine le_trans ?_
          (foldl_price_init_le l (if init < x.price then x.price else init))
        split
        · exact le_refl _
        · exact le_of_not_lt (by assumption)
      · exact ih _ x hx

theorem foldl_price_eq_init_or_mem (l : List MarketSnapshot) :
    ∀ init : ℚ,
      l.foldl (fun m x => if m < x.price then x.price else m) init = init ∨
      ∃ x ∈ l,
        l.foldl (fun m x => if m < x.price then x.price else m) init =
          x.price := by
  induction l with
  | nil => intro init; exact Or.inl rfl
  | cons y l ih =>
      intro init
      rcases ih (if init < y.price then y.price else init) with h | ⟨x, hx, h⟩
      · rw [List.foldl_cons, h]
        split
        · exact Or.inr ⟨y, List.mem_cons_self y l, rfl⟩
        · exact Or.inl rfl
      · exact Or.inr ⟨x, List.mem_cons_of_mem y hx, by rw [List.foldl_cons, h]⟩

/-- Claim C7 (amended): PANIC_DROP is a no-op for any snapshot whose
symbol does not match `sh`/`sz` + 6 digits, and for the hardcoded
default index symbol `sh000001` (the source excludes that literal, not
the configured index symbol); when it applies, the reference price is
the running maximum over the backward scan of entries with timestamp
at least `now - window_sec` (every scanned entry's price is bounded by
it and it is `0` or one of the scanned prices), and the rule is a no-op
when the window has fewer than 2 points or that maximum is ≤ 0. -/
theorem panic_drop_rule :
    (∀ (cfg : PanicDropConfig) (s : MarketSnapshot)
        (w : List MarketSnapshot),
      matchesStockPattern s.symbol = false → rulePanicDrop cfg s w = none) ∧
    (∀ (cfg : PanicDropConfig) (s : MarketSnapshot)
        (w : List MarketSnapshot),
      toLowerStr s.symbol = "sh000001" → rulePanicDrop cfg s w = none) ∧
    (∀ (cfg : PanicDropConfig) (s : MarketSnapshot)
        (w : List MarketSnapshot),
      w.length < 2 → rulePanicDrop cfg s w = none) ∧
    (∀ (cfg : PanicDropConfig) (s : MarketSnapshot)
        (w : List MarketSnapshot),
      maxPriceBack w (s.ts - cfg.windowSec) ≤ 0 →
      rulePanicDrop cfg s w = none) ∧
    (∀ (w : List MarketSnapshot) (cutoff : Int),
      (∀ x ∈ w.reverse.takeWhile (fun x => decide (cutoff ≤ x.ts)),
        x.price ≤ maxPriceBack w cutoff) ∧
      (maxPriceBack w cutoff = 0 ∨
        ∃ x ∈ w.reverse.takeWhile (fun x => decide (cutoff ≤ x.ts)),
          maxPriceBack w cutoff = x.price)) := by
  refine ⟨?_, ?_, ?_, ?_, ?_⟩
  · intro cfg s w h
    simp [rulePanicDrop, isStockSymbol_false_of_pattern h]
  · intro cfg s w h
    simp [rulePanicDrop, isStockSymbol_false_of_index h]
  · intro cfg s w h
    by_cases hs : isStockSymbol s.symbol
    · simp [rulePanicDrop, hs, h]
    · simp [rulePanicDrop, hs]
  · intro cfg s w h
    by_cases hs : isStockSymbol s.symbol
    · by_cases hg : cfg.windowSec ≤ 0 ∨ w.length < 2
      · simp [rulePanicDrop, hs, hg]
      · simp [rulePanicDrop, hs, hg, h]
    · simp [rulePanicDrop, hs]
  · intro w cutoff
    constructor
    · intro x hx
      exact foldl_price_mem_le _ 0 x hx
    · rcases foldl_price_eq_init_or_mem
        (w.reverse.takeWhile (fun x => decide (cutoff ≤ x.ts))) 0 with h | h
      · exact Or.inl h
      · exact Or.inr h

/-- The PANIC_DROP counterexample window: the configured-index symbol
`sh000300` dropping from 100 to 50 within the trailing window. -/
def c7window : List MarketSnapshot :=
  [⟨"sh000300", 100, 100, 0, 0⟩, ⟨"sh000300", 200, 50, 0, 0⟩]

/-- An engine index configuration whose index symbol is `sh000300`
rather than the default. -/
def c7indexCfg : IndexRiskConfig := ⟨"sh000300", 3/2, 3⟩

/-- Claim C7 counterexample: with the index symbol configured as
`sh000300`, a snapshot of that very symbol still fires PANIC_DROP
(severity `high`, drawdown −50%): `isStockSymbol` excludes only the
hardcoded `sh000001`, not the configured index symbol, so the claim
that the rule is a no-op on the configured index symbol is false. -/
theorem panic_drop_counterexample :
    (⟨"sh000300", 200, 50, 0, 0⟩ : MarketSnapshot).symbol =
      c7indexCfg.symbol ∧
    matchesStockPattern "sh000300" = true ∧
    rulePanicDrop ⟨300, 2, 4⟩ ⟨"sh000300", 200, 50, 0, 0⟩ c7window =
      some ("high", -50) := by
  refine ⟨rfl, by decide, ?_⟩
  have hs : isStockSymbol "sh000300" = true := by decide
  have hmax :
      maxPriceBack [⟨"sh000300", 100, 100, 0, 0⟩, ⟨"sh000300", 200, 50, 0, 0⟩]
        ((-100 : Int)) = 100 := by decide
  have hmax' :
      maxPriceBack [⟨"sh000300", 100, 100, 0, 0⟩, ⟨"sh000300", 200, 50, 0, 0⟩]
        ((200 - 300 : Int)) = 100 := by decide
  simp only [rulePanicDrop, c7window, hs]
  norm_num [hmax, hmax']

/-- Concrete instantiation of `panic_drop_rule`'s conditional parts. -/
theorem panic_drop_rule_witness :
    matchesStockPattern "btcusdt1" = false ∧
    rulePanicDrop ⟨300, 2, 4⟩ ⟨"btcusdt1", 200, 50, 0, 0⟩ c7window = none ∧
    toLowerStr "SH000001" = "sh000001" ∧
    rulePanicDrop ⟨300, 2, 4⟩ ⟨"SH000001", 200, 50, 0, 0⟩ c7window = none ∧
    ([⟨"sh000300", 100, 100, 0, 0⟩] : List MarketSnapshot).length < 2 ∧
    rulePanicDrop ⟨300, 2, 4⟩ ⟨"sh000300", 200, 50, 0, 0⟩
      [⟨"sh000300", 100, 100, 0, 0⟩] = none ∧
    maxPriceBack [⟨"sh000300", 100, 0, 0, 0⟩, ⟨"sh000300", 200, 0, 0, 0⟩]
      (200 - 300) ≤ 0 ∧
    rulePanicDrop ⟨300, 2, 4⟩ ⟨"sh000300", 200, 0, 0, 0⟩
      [⟨"sh000300", 100, 0, 0, 0⟩, ⟨"sh000300", 200, 0, 0, 0⟩] = none := by
  refine ⟨by decide,
    panic_drop_rule.1 ⟨300, 2, 4⟩ ⟨"btcusdt1", 200, 50, 0, 0⟩ c7window
      (by decide),
    by decide,
    panic_drop_rule.2.1 ⟨300, 2, 4⟩ ⟨"SH000001", 200, 50, 0, 0⟩ c7window
      (by decide),
    by decide,
    panic_drop_rule.2.2.1 ⟨300, 2, 4⟩ ⟨"sh000300", 200, 50, 0, 0⟩
      [⟨"sh000300", 100, 100, 0, 0⟩] (by decide),
    ?_, ?_⟩
  · decide
  · exact panic_drop_rule.2.2.2.1 ⟨300, 2, 4⟩ ⟨"sh000300", 200, 0, 0, 0⟩
      [⟨"sh000300", 100, 0, 0, 0⟩, ⟨"sh000300", 200, 0, 0, 0⟩] (by decide)

theorem sendNow_status_eq (ch : ChannelOutcome) (req : AlertRequest) :
    (sendNow ch req).status = "sent" := by
  cases ch with
  | noClient => rfl
  | transportError m => rfl
  | response c m =>
      simp only [sendNow]
      split <;> rfl

theorem handleSendOrDigest_status_cases (cfg : AlertConfig)
    (la lw : Bool) (ch : ChannelOutcome)
    (digest : List (String × List AlertRequest)) (req : AlertRequest) :
    (handleSendOrDigest cfg la lw ch digest req).1.status = "queued_digest" ∨
    (handleSendOrDigest cfg la lw ch digest req).1.status = "sent" := by
  unfold handleSendOrDigest
  repeat' split
  all_goals
    first
      | (left; rfl)
      | (right; exact sendNow_status_eq ch req)

/-- Claim C2: starting from a state in which a non-empty dedup key `k`
is unseen, two non-silent `Handle` calls carrying `k`, made while a
dedup window is configured and within the window of each other, yield
exactly one non-suppressed terminal status: the first call is not
suppressed and records its occurrence time, the second is suppressed
and leaves the whole service state (including the recorded time)
unchanged; and an empty dedup key or an unconfigured window bypasses
dedup entirely. -/
theorem dedup_exactly_once (cfg : AlertConfig) (st : AlertState)
    (t1 t2 : Int) (la1 lw1 la2 lw2 : Bool) (ch1 ch2 : ChannelOutcome)
    (req1 req2 : AlertRequest) (k : String)
    (hw : 0 < cfg.dedupWindow) (hk : k ≠ "")
    (h1 : req1.dedupKey = k) (h2 : req2.dedupKey = k)
    (hs1 : req1.silent = false) (hs2 : req2.silent = false)
    (hfresh : lookupKV st.dedup k = none)
    (hin : t2 - t1 ≤ cfg.dedupWindow) :
    (Handle cfg t1 la1 lw1 ch1 st req1).1.status ≠ "suppressed" ∧
    lookupKV (Handle cfg t1 la1 lw1 ch1 st req1).2.dedup k = some t1 ∧
    (Handle cfg t2 la2 lw2 ch2 (Handle cfg t1 la1 lw1 ch1 st req1).2
      req2).1.status = "suppressed" ∧
    (Handle cfg t2 la2 lw2 ch2 (Handle cfg t1 la1 lw1 ch1 st req1).2 req2).2 =
      (Handle cfg t1 la1 lw1 ch1 st req1).2 ∧
    (∀ (dedup : List (String × Int)) (now : Int) (req : AlertRequest),
      req.dedupKey = "" → isDeduped cfg dedup now req = (false, dedup)) ∧
    (∀ (cfg' : AlertConfig) (dedup : List (String × Int)) (now : Int)
        (req : AlertRequest),
      cfg'.dedupWindow ≤ 0 → isDeduped cfg' dedup now req = (false, dedup)) := by
  have hn1d : (normalize req1).dedupKey = k := by simp [normalize, h1]
  have hn1s : (normalize req1).silent = false := by simp [normalize, hs1]
  have hn2d : (normalize req2).dedupKey = k := by simp [normalize, h2]
  have hn2s : (normalize req2).silent = false := by simp [normalize, hs2]
  have hdd1 : isDeduped cfg st.dedup t1 (normalize req1) =
      (false, insertKV st.dedup k t1) := by
    unfold isDeduped
    rw [hn1d, if_neg (by push_neg; exact ⟨hk, by omega⟩), hfresh]
  have hmain1 :
      (Handle cfg t1 la1 lw1 ch1 st req1).2.dedup = insertKV st.dedup k t1 ∧
      (Handle cfg t1 la1 lw1 ch1 st req1).1.status ≠ "suppressed" := by
    unfold Handle
    rw [if_neg (by simp [hn1s])]
    simp only [hdd1]
    by_cases hm : (normalize req1).mergeKey ≠ "" ∧ 0 < cfg.mergeWindow
    · rw [if_neg (by simp), if_pos hm]
      refine ⟨rfl, ?_⟩
      simp
    · rw [if_neg (by simp), if_neg hm]
      refine ⟨rfl, ?_⟩
      rcases handleSendOrDigest_status_cases cfg la1 lw1 ch1 st.digest
        (normalize req1) with h | h <;> simp [h]
  obtain ⟨hdeq, hstat1⟩ := hmain1
  have h2nd : ∀ st1 : AlertState, st1.dedup = insertKV st.dedup k t1 →
      Handle cfg t2 la2 lw2 ch2 st1 req2 =
      ({ status := "suppressed", error := none
         dingTalkErrCode := 0, dingTalkErrMsg := "" }, st1) := by
    intro st1 hst1
    have hdd2 : isDeduped cfg st1.dedup t2 (normalize req2) =
        (true, st1.dedup) := by
      unfold isDeduped
      rw [hn2d, hst1, if_neg (by push_neg; exact ⟨hk, by omega⟩),
        lookupKV_insertKV_self]
      simp [hin, ← hst1]
    unfold Handle
    rw [if_neg (by simp [hn2s])]
    simp only [hdd2]
    rfl
  refine ⟨hstat1, by rw [hdeq]; exact lookupKV_insertKV_self _ _ _, ?_, ?_,
    ?_, ?_⟩
  · rw [h2nd _ hdeq]
  · rw [h2nd _ hdeq]
  · intro dedup now req h
    unfold isDeduped
    rw [if_pos (Or.inl h)]
  · intro cfg' dedup now req h
    unfold isDeduped
    rw [if_pos (Or.inr h)]

def c2cfg : AlertConfig := ⟨60, 0, 0⟩

def c2req1 : AlertRequest :=
  ⟨"med", "g", "alert one", "body1", "dup:key", "", false⟩

def c2req2 : AlertRequest :=
  ⟨"med", "g", "alert two", "body2", "dup:key", "", false⟩

def c2st0 : AlertState := ⟨[], [], []⟩

/-- Concrete instantiation of `dedup_exactly_once`: two calls 30 time
units apart under a 60-unit window. -/
theorem dedup_exactly_once_witness :
    (0 : Int) < c2cfg.dedupWindow ∧ "dup:key" ≠ "" ∧
    lookupKV c2st0.dedup "dup:key" = none ∧
    (130 : Int) - 100 ≤ c2cfg.dedupWindow ∧
    ((Handle c2cfg 100 true true (.response 0 "ok") c2st0
        c2req1).1.status ≠ "suppressed" ∧
     lookupKV (Handle c2cfg 100 true true (.response 0 "ok") c2st0
        c2req1).2.dedup "dup:key" = some 100 ∧
     (Handle c2cfg 130 false false (.response 0 "ok")
        (Handle c2cfg 100 true true (.response 0 "ok") c2st0 c2req1).2
        c2req2).1.status = "suppressed" ∧
     (Handle c2cfg 130 false false (.response 0 "ok")
        (Handle c2cfg 100 true true (.response 0 "ok") c2st0 c2req1).2
        c2req2).2 =
       (Handle c2cfg 100 true true (.response 0 "ok") c2st0 c2req1).2) :=
  ⟨by decide, by decide, rfl, by decide,
   (dedup_exactly_once c2cfg c2st0 100 130 true true false false
     (.response 0 "ok") (.response 0 "ok") c2req1 c2req2 "dup:key"
     (by decide) (by decide) rfl rfl rfl rfl rfl (by decide)).1,
   (dedup_exactly_once c2cfg c2st0 100 130 true true false false
     (.response 0 "ok") (.response 0 "ok") c2req1 c2req2 "dup:key"
     (by decide) (by decide) rfl rfl rfl rfl rfl (by decide)).2.1,
   (dedup_exactly_once c2cfg c2st0 100 130 true true false false
     (.response 0 "ok") (.response 0 "ok") c2req1 c2req2 "dup:key"
     (by decide) (by decide) rfl rfl rfl rfl rfl (by decide)).2.2.1,
   (dedup_exactly_once c2cfg c2st0 100 130 true true false false
     (.response 0 "ok") (.response 0 "ok") c2req1 c2req2 "dup:key"
     (by decide) (by decide) rfl rfl rfl rfl rfl (by decide)).2.2.2.1⟩

theorem lookupKV_eraseKV_self {α : Type} (m : List (String × α))
    (key : String) : lookupKV (eraseKV m key) key = none := by
  induction m with
  | nil => rfl
  | cons hd tl ih =>
      obtain ⟨k, v⟩ := hd
      by_cases hk : k = key
      · simp [eraseKV, hk, ih]
      · simp [eraseKV, hk, lookupKV, ih]

theorem rank_foldl_init_le (l : List AlertRequest) :
    ∀ p0 : String,
      rank p0 ≤ rank (l.foldl
        (fun p a => if rank p < rank a.priority then a.priority else p) p0) := by
  induction l with
  | nil => intro p0; exact le_refl _
  | cons a l ih =>
      intro p0
      refine le_trans ?_ (ih _)
      dsimp only
      split
      · exact le_of_lt (by assumption)
      · exact le_refl _

theorem rank_foldl_mem_le (l : List AlertRequest) :
    ∀ p0 : String, ∀ a ∈ l,
      rank a.priority ≤ rank (l.foldl
        (fun p a => if rank p < rank a.priority then a.priority else p) p0) := by
  induction l with
  | nil => intro p0 a ha; exact absurd ha (List.not_mem_nil a)
  | cons b l ih =>
      intro p0 a ha
      rcases List.mem_cons.mp ha with ha | ha
      · subst ha
        refine le_trans ?_ (rank_foldl_init_le l _)
        dsimp only
        split
        · exact le_refl _
        · exact le_of_not_lt (by assumption)
      · exact ih _ a ha

theorem rank_le_maxPriority (alerts : List AlertRequest) :
    ∀ a ∈ alerts, rank a.priority ≤ rank (maxPriority alerts) := by
  intro a ha
  exact rank_foldl_mem_le alerts "low" a ha

theorem handleAll_merge_aux (cfg : AlertConfig) (hm : 0 < cfg.mergeWindow)
    (k : String) (hk : k ≠ "") (now : Int) (la lw : Bool)
    (ch : ChannelOutcome) :
    ∀ (reqs : List AlertRequest) (st : AlertState),
      (∀ r ∈ reqs, r.mergeKey = k ∧ r.silent = false ∧ r.dedupKey = "") →
      (∀ res ∈ (handleAll cfg now la lw ch st reqs).1,
        res.status = "merged_pending") ∧
      (handleAll cfg now la lw ch st reqs).2.dedup = st.dedup ∧
      (handleAll cfg now la lw ch st reqs).2.digest = st.digest ∧
      bucketKV (handleAll cfg now la lw ch st reqs).2.merge k =
        bucketKV st.merge k ++ reqs.map normalize := by
  intro reqs
  induction reqs with
  | nil =>
      intro st _
      refine ⟨?_, rfl, rfl, by simp [handleAll]⟩
      intro res hres
      exact absurd hres (List.not_mem_nil res)
  | cons r rest ih =>
      intro st h
      have hr := h r (List.mem_cons_self r rest)
      have hH : Handle cfg now la lw ch st r =
          ({ status := "merged_pending", error := none
             dingTalkErrCode := 0, dingTalkErrMsg := "" },
           { st with merge := enqueueMerge st.merge (normalize r) }) := by
        unfold Handle
        rw [if_neg (by simp [normalize, hr.2.1])]
        have hdd : isDeduped cfg st.dedup now (normalize r) =
            (false, st.dedup) := by
          unfold isDeduped
          rw [if_pos (Or.inl (by simp [normalize, hr.2.2]))]
        simp only [hdd]
        rw [if_neg (by simp), if_pos ⟨by simp [normalize, hr.1, hk], hm⟩]
      obtain ⟨ih1, ih2, ih3, ih4⟩ :=
        ih { st with merge := enqueueMerge st.merge (normalize r) }
          (fun x hx => h x (List.mem_cons_of_mem r hx))
      have hbq : bucketKV (enqueueMerge st.merge (normalize r)) k =
          bucketKV st.merge k ++ [normalize r] := by
        unfold enqueueMerge
        rw [show (normalize r).mergeKey = k by simp [normalize, hr.1]]
        exact bucketKV_appendKV_self _ _ _
      refine ⟨?_, ?_, ?_, ?_⟩
      · intro res hres
        simp only [handleAll, hH] at hres
        rcases List.mem_cons.mp hres with hres | hres
        · rw [hres]
        · exact ih1 res hres
      · simp only [handleAll, hH]
        exact ih2
      · simp only [handleAll, hH]
        exact ih3
      · simp only [handleAll, hH]
        rw [ih4]
        simp only [hbq, List.map_cons]
        rw [List.append_assoc]
        rfl

/-- Claim C3: a batch of `N` non-silent `Handle` calls sharing a
non-empty merge key, arriving within one merge window (fresh key, dedup
not involved), each return `merged_pending`; the flush collapses the
batch into exactly one synthetic request whose priority ranks at least
every member's (it is the fold maximum), whose title is the first
member's title with a `(+N-1)` suffix when `N > 1`, whose body
concatenates each member's title-and-body block, and whose merge and
dedup keys are cleared; a flush whose members were all silent resubmits
nothing. -/
theorem merge_batch (cfg : AlertConfig) (st : AlertState) (now : Int)
    (la lw : Bool) (ch : ChannelOutcome) (reqs : List AlertRequest)
    (k : String)
    (hm : 0 < cfg.mergeWindow) (hk : k ≠ "") (hne : reqs ≠ [])
    (hr : ∀ r ∈ reqs, r.mergeKey = k ∧ r.silent = false ∧ r.dedupKey = "")
    (hfresh : lookupKV st.merge k = none) :
    (∀ res ∈ (handleAll cfg now la lw ch st reqs).1,
      res.status = "merged_pending") ∧
    lookupKV (handleAll cfg now la lw ch st reqs).2.merge k =
      some (reqs.map normalize) ∧
    (flushMerge (handleAll cfg now la lw ch st reqs).2.merge k).2 =
      some (buildMerged (reqs.map normalize)) ∧
    lookupKV (flushMerge (handleAll cfg now la lw ch st reqs).2.merge k).1
      k = none ∧
    (buildMerged (reqs.map normalize)).mergeKey = "" ∧
    (buildMerged (reqs.map normalize)).dedupKey = "" ∧
    (buildMerged (reqs.map normalize)).priority =
      maxPriority (reqs.map normalize) ∧
    (∀ a ∈ reqs.map normalize,
      rank a.priority ≤ rank (maxPriority (reqs.map normalize))) ∧
    (∀ (a : AlertRequest) (rest : List AlertRequest), reqs = a :: rest →
      rest ≠ [] →
      (buildMerged (reqs.map normalize)).title =
        (if a.title = "" then "Merged Alerts" else a.title) ++ " (+" ++
          toString (reqs.length - 1) ++ ")") ∧
    (buildMerged (reqs.map normalize)).markdown =
      String.join ((reqs.map normalize).map memberBlock) ∧
    (∀ (m : List (String × List AlertRequest)) (key : String)
        (alerts : List AlertRequest),
      lookupKV m key = some alerts → allSilent alerts = true →
      (flushMerge m key).2 = none) := by
  obtain ⟨ha1, _, _, ha4⟩ :=
    handleAll_merge_aux cfg hm k hk now la lw ch reqs st hr
  have hb0 : bucketKV st.merge k = [] := by
    unfold bucketKV
    rw [hfresh]
    rfl
  have hbk : bucketKV (handleAll cfg now la lw ch st reqs).2.merge k =
      reqs.map normalize := by
    rw [ha4, hb0]
    rfl
  have hlk : lookupKV (handleAll cfg now la lw ch st reqs).2.merge k =
      some (reqs.map normalize) := by
    cases hc : lookupKV (handleAll cfg now la lw ch st reqs).2.merge k with
    | none =>
        exfalso
        have : bucketKV (handleAll cfg now la lw ch st reqs).2.merge k = [] := by
          unfold bucketKV
          rw [hc]
          rfl
        rw [hbk] at this
        exact hne (List.map_eq_nil_iff.mp this)
    | some l =>
        have : bucketKV (handleAll cfg now la lw ch st reqs).2.merge k = l := by
          unfold bucketKV
          rw [hc]
          rfl
        rw [hbk] at this
        rw [this]
  obtain ⟨r0, rest0, hcons⟩ := List.exists_cons_of_ne_nil hne
  have hlen0 : ¬ (reqs.map normalize).length = 0 := by
    simp [hcons]
  have hs0 : (normalize r0).silent = false := by
    have := (hr r0 (by rw [hcons]; exact List.mem_cons_self _ _)).2.1
    simp [normalize, this]
  have hsilfalse : allSilent (reqs.map normalize) = false := by
    rw [hcons]
    simp [allSilent, hs0]
  have hmergedsil : (buildMerged (reqs.map normalize)).silent = false := by
    rw [hcons] at hsilfalse ⊢
    simp only [List.map_cons] at hsilfalse ⊢
    exact hsilfalse
  have hflush : flushMerge (handleAll cfg now la lw ch st reqs).2.merge k =
      (eraseKV (handleAll cfg now la lw ch st reqs).2.merge k,
       some (buildMerged (reqs.map normalize))) := by
    unfold flushMerge
    rw [hlk]
    dsimp only
    rw [if_neg hlen0, if_neg (by simp [hmergedsil])]
  refine ⟨ha1, hlk, by rw [hflush], ?_, ?_, ?_, ?_,
    rank_le_maxPriority _, ?_, ?_, ?_⟩
  · rw [hflush]
    exact lookupKV_eraseKV_self _ _
  · rw [hcons]
    simp only [List.map_cons]
    rfl
  · rw [hcons]
    simp only [List.map_cons]
    rfl
  · rw [hcons]
    simp only [List.map_cons]
    rfl
  · intro a rest hcr hrest
    subst hcr
    cases rest with
    | nil => exact absurd rfl hrest
    | cons r1 t =>
        show mergedTitle (normalize a :: normalize r1 :: t.map normalize) = _
        simp [mergedTitle, normalize]
  · rw [hcons]
    simp only [List.map_cons]
    rfl
  · intro m key alerts hlkm hsil
    unfold flushMerge
    rw [hlkm]
    dsimp only
    by_cases hlz : alerts.length = 0
    · rw [if_pos hlz]
    · rw [if_neg hlz]
      have hbs : (buildMerged alerts).silent = true := by
        cases alerts with
        | nil => simp at hlz
        | cons x l => exact hsil
      rw [if_pos (by simp [hbs])]



def c3cfg : AlertConfig := ⟨0, 30, 0⟩

def c3reqA : AlertRequest :=
  ⟨"low", "risk", "titleA", "bodyA", "", "risk:sh600000", false⟩

def c3reqB : AlertRequest :=
  ⟨"high", "risk", "titleB", "bodyB", "", "risk:sh600000", false⟩

/-- Concrete instantiation of `merge_batch`: two requests merged under a
30-unit window; the flush resubmits one synthetic request titled
`titleA (+1)` with cleared keys. -/
theorem merge_batch_witness :
    (0 : Int) < c3cfg.mergeWindow ∧ "risk:sh600000" ≠ "" ∧
    ([c3reqA, c3reqB] : List AlertRequest) ≠ [] ∧
    lookupKV (AlertState.merge ⟨[], [], []⟩) "risk:sh600000" = none ∧
    lookupKV (handleAll c3cfg 0 true true (.response 0 "ok") ⟨[], [], []⟩
        [c3reqA, c3reqB]).2.merge "risk:sh600000" =
      some ([c3reqA, c3reqB].map normalize) ∧
    (flushMerge (handleAll c3cfg 0 true true (.response 0 "ok") ⟨[], [], []⟩
        [c3reqA, c3reqB]).2.merge "risk:sh600000").2 =
      some (buildMerged ([c3reqA, c3reqB].map normalize)) ∧
    (buildMerged ([c3reqA, c3reqB].map normalize)).mergeKey = "" ∧
    (buildMerged ([c3reqA, c3reqB].map normalize)).title =
      (if c3reqA.title = "" then "Merged Alerts" else c3reqA.title) ++
        " (+" ++ toString (([c3reqA, c3reqB] : List AlertRequest).length - 1)
        ++ ")" :=
  ⟨by decide, by decide, by decide, rfl,
   (merge_batch c3cfg ⟨[], [], []⟩ 0 true true (.response 0 "ok")
     [c3reqA, c3reqB] "risk:sh600000" (by decide) (by decide) (by decide)
     (by decide) rfl).2.1,
   (merge_batch c3cfg ⟨[], [], []⟩ 0 true true (.response 0 "ok")
     [c3reqA, c3reqB] "risk:sh600000" (by decide) (by decide) (by decide)
     (by decide) rfl).2.2.1,
   (merge_batch c3cfg ⟨[], [], []⟩ 0 true true (.response 0 "ok")
     [c3reqA, c3reqB] "risk:sh600000" (by decide) (by decide) (by decide)
     (by decide) rfl).2.2.2.2.1,
   (merge_batch c3cfg ⟨[], [], []⟩ 0 true true (.response 0 "ok")
     [c3reqA, c3reqB] "risk:sh600000" (by decide) (by decide) (by decide)
     (by decide) rfl).2.2.2.2.2.2.2.2.1 c3reqA [c3reqB] rfl (by decide)⟩

/-- Claim C4 counterexample: with no digest flush interval configured
(`lowDigestInterval = 0`), a non-silent low-priority request returns
`queued_digest` but `addDigest` is a no-op, so the request is neither
sent nor present in any digest bucket: it is silently dropped,
contradicting the claim that it is always appended to its group's
bucket. -/
theorem low_priority_digest_counterexample :
    (Handle ⟨0, 0, 0⟩ 0 true true (.response 0 "ok") ⟨[], [], []⟩
      ⟨"low", "risk", "t", "m", "", "", false⟩).1.status = "queued_digest" ∧
    (Handle ⟨0, 0, 0⟩ 0 true true (.response 0 "ok") ⟨[], [], []⟩
      ⟨"low", "risk", "t", "m", "", "", false⟩).2.digest = [] ∧
    (Handle ⟨0, 0, 0⟩ 0 true true (.response 0 "ok") ⟨[], [], []⟩
      ⟨"low", "risk", "t", "m", "", "", false⟩).1.status ≠ "sent" := by
  refine ⟨?_, ?_, ?_⟩ <;> decide

/-- Claim C4 (amended): provided a digest flush interval is configured
(positive), every non-silent, non-deduped, non-merged request that
reaches priority routing is never silently dropped: a low-priority
request returns `queued_digest` and is appended to its group's digest
bucket; a non-low request that fails the rate limiter (including the
bounded high-priority wait) is likewise appended; and in every case the
outcome is either a `sent` result or `queued_digest` with the request
in the bucket.  Without a configured interval the digest stage is a
no-op and such a request is dropped (see the counterexample). -/
theorem low_priority_digest_amended (cfg : AlertConfig) (now : Int)
    (la lw : Bool) (ch : ChannelOutcome) (st : AlertState)
    (req : AlertRequest)
    (hdig : 0 < cfg.lowDigestInterval)
    (hsil : req.silent = false) (hdk : req.dedupKey = "")
    (hmk : req.mergeKey = "") :
    (req.priority = "low" →
      (Handle cfg now la lw ch st req).1.status = "queued_digest" ∧
      bucketKV (Handle cfg now la lw ch st req).2.digest
          (normalize req).group =
        bucketKV st.digest (normalize req).group ++ [normalize req]) ∧
    (req.priority ≠ "low" → la = false → (req.priority = "high" → lw = false) →
      (Handle cfg now la lw ch st req).1.status = "queued_digest" ∧
      bucketKV (Handle cfg now la lw ch st req).2.digest
          (normalize req).group =
        bucketKV st.digest (normalize req).group ++ [normalize req]) ∧
    ((Handle cfg now la lw ch st req).1.status = "sent" ∨
      ((Handle cfg now la lw ch st req).1.status = "queued_digest" ∧
       bucketKV (Handle cfg now la lw ch st req).2.digest
           (normalize req).group =
         bucketKV st.digest (normalize req).group ++ [normalize req])) := by
  have hns : (normalize req).silent = false := by simp [normalize, hsil]
  have hdd : isDeduped cfg st.dedup now (normalize req) = (false, st.dedup) := by
    unfold isDeduped
    rw [if_pos (Or.inl (by simp [normalize, hdk]))]
  have hnm : ¬ ((normalize req).mergeKey ≠ "" ∧ 0 < cfg.mergeWindow) := by
    intro hcon
    exact hcon.1 (by simp [normalize, hmk])
  have hH : Handle cfg now la lw ch st req =
      ((handleSendOrDigest cfg la lw ch st.digest (normalize req)).1,
       { st with
         digest :=
           (handleSendOrDigest cfg la lw ch st.digest (normalize req)).2 }) := by
    unfold Handle
    rw [if_neg (by simp [hns])]
    simp only [hdd]
    rw [if_neg (by simp), if_neg hnm]
  have hadd : addDigest cfg st.digest (normalize req) =
      appendKV st.digest (normalize req).group (normalize req) := by
    unfold addDigest
    rw [if_neg (by omega)]
    have hg : (normalize req).group ≠ "" := by
      by_cases hgg : req.group = "" <;> simp [normalize, hgg]
    rw [if_neg hg]
  have hqd : ∀ hcase :
      handleSendOrDigest cfg la lw ch st.digest (normalize req) =
        ({ status := "queued_digest", error := none
           dingTalkErrCode := 0, dingTalkErrMsg := "" },
         addDigest cfg st.digest (normalize req)),
      (Handle cfg now la lw ch st req).1.status = "queued_digest" ∧
      bucketKV (Handle cfg now la lw ch st req).2.digest
          (normalize req).group =
        bucketKV st.digest (normalize req).group ++ [normalize req] := by
    intro hcase
    rw [hH]
    simp only [hcase, hadd]
    exact ⟨trivial, bucketKV_appendKV_self _ _ _⟩
  by_cases hlow : (normalize req).priority = "low"
  · have hsd : handleSendOrDigest cfg la lw ch st.digest (normalize req) =
        ({ status := "queued_digest", error := none
           dingTalkErrCode := 0, dingTalkErrMsg := "" },
         addDigest cfg st.digest (normalize req)) := by
      unfold handleSendOrDigest
      rw [if_pos hlow]
    refine ⟨fun _ => hqd hsd, fun hnl _ _ => ?_, Or.inr (hqd hsd)⟩
    · exfalso
      by_cases hp : req.priority = ""
      · rw [show (normalize req).priority = "med" by simp [normalize, hp]]
          at hlow
        exact absurd hlow (by decide)
      · exact hnl (by rw [show (normalize req).priority = req.priority by
          simp [normalize, hp]] at hlow; exact hlow)
  · refine ⟨fun hl => ?_, fun _ hla hlw => ?_, ?_⟩
    · exfalso
      exact hlow (by simp [normalize, hl])
    · have hsd : handleSendOrDigest cfg la lw ch st.digest (normalize req) =
          ({ status := "queued_digest", error := none
             dingTalkErrCode := 0, dingTalkErrMsg := "" },
           addDigest cfg st.digest (normalize req)) := by
        unfold handleSendOrDigest
        rw [if_neg hlow, if_neg (by rw [hla]; exact Bool.false_ne_true)]
        by_cases hh : (normalize req).priority = "high"
        · rw [if_pos hh]
          have hpr : req.priority = "high" := by
            by_cases hp : req.priority = ""
            · rw [show (normalize req).priority = "med" by
                simp [normalize, hp]] at hh
              exact absurd hh (by decide)
            · rw [show (normalize req).priority = req.priority by
                simp [normalize, hp]] at hh
              exact hh
          rw [if_neg (by rw [hlw hpr]; exact Bool.false_ne_true)]
        · rw [if_neg hh]
      exact hqd hsd
    · by_cases hla : la = true
      · have hsd : handleSendOrDigest cfg la lw ch st.digest (normalize req) =
            (sendNow ch (normalize req), st.digest) := by
          unfold handleSendOrDigest
          rw [if_neg hlow, if_pos hla]
        left
        rw [hH]
        simp only [hsd]
        exact sendNow_status_eq ch (normalize req)
      · have hla' : la = false := by
          cases la
          · rfl
          · exact absurd rfl hla
        by_cases hh : (normalize req).priority = "high"
        · by_cases hlwt : lw = true
          · have hsd : handleSendOrDigest cfg la lw ch st.digest
                (normalize req) = (sendNow ch (normalize req), st.digest) := by
              unfold handleSendOrDigest
              rw [if_neg hlow, if_neg (by rw [hla']; exact Bool.false_ne_true),
                if_pos hh, if_pos hlwt]
            left
            rw [hH]
            simp only [hsd]
            exact sendNow_status_eq ch (normalize req)
          · have hlw' : lw = false := by
              cases lw
              · rfl
              · exact absurd rfl hlwt
            have hsd : handleSendOrDigest cfg la lw ch st.digest
                (normalize req) =
                ({ status := "queued_digest", error := none
                   dingTalkErrCode := 0, dingTalkErrMsg := "" },
                 addDigest cfg st.digest (normalize req)) := by
              unfold handleSendOrDigest
              rw [if_neg hlow, if_neg (by rw [hla']; exact Bool.false_ne_true),
                if_pos hh,
                if_neg (by rw [hlw']; exact Bool.false_ne_true)]
            exact Or.inr (hqd hsd)
        · have hsd : handleSendOrDigest cfg la lw ch st.digest
              (normalize req) =
              ({ status := "queued_digest", error := none
                 dingTalkErrCode := 0, dingTalkErrMsg := "" },
               addDigest cfg st.digest (normalize req)) := by
            unfold handleSendOrDigest
            rw [if_neg hlow, if_neg (by rw [hla']; exact Bool.false_ne_true),
              if_neg hh]
          exact Or.inr (hqd hsd)

/-- Concrete instantiation of `low_priority_digest_amended`: a
low-priority request with a configured digest interval lands in its
group's bucket. -/
theorem low_priority_digest_amended_witness :
    (0 : Int) < 60 ∧
    ((Handle ⟨0, 0, 60⟩ 0 true true (.response 0 "ok") ⟨[], [], []⟩
        ⟨"low", "risk", "t", "m", "", "", false⟩).1.status =
      "queued_digest" ∧
     bucketKV (Handle ⟨0, 0, 60⟩ 0 true true (.response 0 "ok") ⟨[], [], []⟩
        ⟨"low", "risk", "t", "m", "", "", false⟩).2.digest
        (normalize ⟨"low", "risk", "t", "m", "", "", false⟩).group =
      bucketKV (AlertState.digest ⟨[], [], []⟩)
        (normalize ⟨"low", "risk", "t", "m", "", "", false⟩).group ++
        [normalize ⟨"low", "risk", "t", "m", "", "", false⟩]) :=
  ⟨by decide,
   (low_priority_digest_amended ⟨0, 0, 60⟩ 0 true true (.response 0 "ok")
     ⟨[], [], []⟩ ⟨"low", "risk", "t", "m", "", "", false⟩ (by decide) rfl rfl
     rfl).1 rfl⟩

theorem Handle_status_cases (cfg : AlertConfig) (now : Int) (la lw : Bool)
    (ch : ChannelOutcome) (st : AlertState) (req : AlertRequest) :
    (Handle cfg now la lw ch st req).1.status = "suppressed" ∨
    (Handle cfg now la lw ch st req).1.status = "merged_pending" ∨
    (Handle cfg now la lw ch st req).1.status = "queued_digest" ∨
    (Handle cfg now la lw ch st req).1.status = "sent" := by
  unfold Handle
  split
  · left; rfl
  split
  · left; rfl
  split
  · right; left; rfl
  · rcases handleSendOrDigest_status_cases cfg la lw ch st.digest
      (normalize req) with h | h
    · right; right; left; exact h
    · right; right; right; exact h

/-- Claim C8: delivery outcomes always carry status `sent` — a missing
client, a transport error, and a non-zero channel error code each yield
a `sent` result with a present error (the response case carrying the
channel code and message); and every result `Handle` returns has one of
the four non-empty statuses, so a result with a non-nil error always
has a non-empty status (attempted-but-failed is distinguishable from
never-attempted). -/
theorem delivery_status_encoding :
    (∀ (req : AlertRequest) (ch : ChannelOutcome),
      (sendNow ch req).status = "sent") ∧
    (∀ (req : AlertRequest), (sendNow .noClient req).error.isSome = true) ∧
    (∀ (req : AlertRequest) (e : String),
      (sendNow (.transportError e) req).error = some e) ∧
    (∀ (req : AlertRequest) (c : Int) (m : String), c ≠ 0 →
      (sendNow (.response c m) req).error.isSome = true ∧
      (sendNow (.response c m) req).dingTalkErrCode = c ∧
      (sendNow (.response c m) req).dingTalkErrMsg = m) ∧
    (∀ (cfg : AlertConfig) (now : Int) (la lw : Bool) (ch : ChannelOutcome)
        (st : AlertState) (req : AlertRequest),
      (Handle cfg now la lw ch st req).1.status ≠ "") ∧
    (∀ (cfg : AlertConfig) (now : Int) (la lw : Bool) (ch : ChannelOutcome)
        (st : AlertState) (req : AlertRequest),
      (Handle cfg now la lw ch st req).1.error ≠ none →
      (Handle cfg now la lw ch st req).1.status ≠ "") := by
  refine ⟨?_, ?_, ?_, ?_, ?_, ?_⟩
  · intro req ch
    exact sendNow_status_eq ch req
  · intro req
    rfl
  · intro req e
    rfl
  · intro req c m hc
    simp only [sendNow]
    rw [if_pos hc]
    exact ⟨rfl, rfl, rfl⟩
  · intro cfg now la lw ch st req
    rcases Handle_status_cases cfg now la lw ch st req with h | h | h | h <;>
      rw [h] <;> decide
  · intro cfg now la lw ch st req _
    rcases Handle_status_cases cfg now la lw ch st req with h | h | h | h <;>
      rw [h] <;> decide

/-- Concrete instantiation of `delivery_status_encoding`: channel error
code 310000 yields a `sent` result with a present error carrying the
code and message; a `Handle` call with a failing channel still has a
non-empty status. -/
theorem delivery_status_encoding_witness :
    (310000 : Int) ≠ 0 ∧
    ((sendNow (.response 310000 "sign mismatch")
        ⟨"high", "risk", "t", "m", "", "", false⟩).error.isSome = true ∧
     (sendNow (.response 310000 "sign mismatch")
        ⟨"high", "risk", "t", "m", "", "", false⟩).dingTalkErrCode = 310000 ∧
     (sendNow (.response 310000 "sign mismatch")
        ⟨"high", "risk", "t", "m", "", "", false⟩).dingTalkErrMsg =
       "sign mismatch") ∧
    (Handle ⟨0, 0, 0⟩ 0 true true (.transportError "timeout") ⟨[], [], []⟩
        ⟨"high", "risk", "t", "m", "", "", false⟩).1.error ≠ none ∧
    (Handle ⟨0, 0, 0⟩ 0 true true (.transportError "timeout") ⟨[], [], []⟩
        ⟨"high", "risk", "t", "m", "", "", false⟩).1.status ≠ "" :=
  ⟨by decide,
   delivery_status_encoding.2.2.2.1 ⟨"high", "risk", "t", "m", "", "", false⟩
     310000 "sign mismatch" (by decide),
   by decide,
   delivery_status_encoding.2.2.2.2.2 ⟨0, 0, 0⟩ 0 true true
     (.transportError "timeout") ⟨[], [], []⟩
     ⟨"high", "risk", "t", "m", "", "", false⟩ (by decide)⟩

def c9snap : MarketSnapshot := ⟨"sh600000", 100, 50, -1, 100⟩

def c9ev : EvidenceV := ⟨none, some (-10), some 300, some 4, none, none, none⟩

/-- Claim C9 counterexample: with no Durable Store, `emit` returns
early — no decision is evaluated and no alert is submitted to the Alert
Service — contradicting the claim that decision evaluation proceeds
with id 0 and the alert is still submitted. -/
theorem store_absent_counterexample :
    (emit none true "PANIC_DROP" "high" c9snap c9ev).alert = none ∧
    (emit none true "PANIC_DROP" "high" c9snap c9ev).decision = none ∧
    (emit none true "PANIC_DROP" "high" c9snap c9ev).persisted = false :=
  ⟨rfl, rfl, rfl⟩

/-- Claim C9 (amended): when the store is absent, `emit` does not crash
but drops the firing entirely (nothing persisted, no decision, no
alert); decision evaluation with event id `0` and alert submission
happen instead in the distinct degraded case where the store is present
but the insert fails — there `emit` proceeds with id 0, evaluates the
fallback decision on that input, and still submits the alert. -/
theorem store_absent_amended (alertSvc : Bool) (ty sev : String)
    (s : MarketSnapshot) (ev : EvidenceV) :
    emit none alertSvc ty sev s ev =
      { persisted := false, eventId := 0, decision := none, alert := none } ∧
    (emit (some (.error ())) true ty sev s ev).persisted = true ∧
    (emit (some (.error ())) true ty sev s ev).eventId = 0 ∧
    (emit (some (.error ())) true ty sev s ev).decision =
      some (fallbackFromEvent
        (emitInput 0 ty (if sev = "" then "med" else sev) s ev)) ∧
    (emit (some (.error ())) true ty sev s ev).alert.isSome = true ∧
    (∀ i : Int, (emit (some (.ok i)) true ty sev s ev).eventId = i) :=
  ⟨rfl, rfl, rfl, rfl, rfl, fun _ => rfl⟩

theorem trimList_length (l : List String) (n : Nat) :
    (trimList l n).length = min l.length n := by
  unfold trimList
  split <;> simp [List.length_take] <;> omega

theorem trimList_default_length (l : List String) (d : String) :
    1 ≤ (trimList (if l.length = 0 then [d] else l) 3).length ∧
    (trimList (if l.length = 0 then [d] else l) 3).length ≤ 3 := by
  rw [trimList_length]
  by_cases h : l.length = 0
  · simp [h]
  · simp [h]
    omega

/-- Claim C10: the Decision Advisor fallback is a pure function —
evaluating it twice on the same input yields the identical decision —
and every decision it produces is structurally valid: risk level in
`[1,5]`, severity one of low/med/high, `why` and `action_hint` each
with 1 to 3 items (never empty), and confidence in `[0,1]`. -/
theorem fallback_decision (i : EventInput) :
    fallbackFromEvent i = fallbackFromEvent i ∧
    1 ≤ (fallbackFromEvent i).riskLevel ∧
    (fallbackFromEvent i).riskLevel ≤ 5 ∧
    ((fallbackFromEvent i).severity = "low" ∨
     (fallbackFromEvent i).severity = "med" ∨
     (fallbackFromEvent i).severity = "high") ∧
    1 ≤ (fallbackFromEvent i).why.length ∧
    (fallbackFromEvent i).why.length ≤ 3 ∧
    1 ≤ (fallbackFromEvent i).actionHint.length ∧
    (fallbackFromEvent i).actionHint.length ≤ 3 ∧
    0 ≤ (fallbackFromEvent i).confidence ∧
    (fallbackFromEvent i).confidence ≤ 1 := by
  refine ⟨rfl, ?_, ?_, ?_, ?_, ?_, ?_, ?_, ?_, ?_⟩ <;>
    (unfold fallbackFromEvent; dsimp only)
  · split_ifs <;> norm_num
  · split_ifs <;> norm_num
  · split_ifs with h1 h2
    · right; right; exact h1
    · right; left; exact h2
    · left; rfl
  · exact (trimList_default_length _ _).1
  · exact (trimList_default_length _ _).2
  · exact (trimList_default_length _ _).1
  · exact (trimList_default_length _ _).2
  · split_ifs <;> norm_num
  · split_ifs <;> norm_num

end TradingAssistant
